import Mathlib

/-!
Shallow embedding of `fChart.py`, a solar-insolation pipeline.

The Python source computes, per calendar month, solar geometry (declination,
eccentricity-corrected solar constant, sunset hour angle, extraterrestrial
insolation), clearness index and diffuse fraction, the Klein–Theilacker
tilted-surface coefficients and tilt factor `D`, the tilted-to-horizontal
ratio `r_bar`, and finally tilted insolation; an annual day-weighted average
and a negated objective for a slope/azimuth optimizer sit on top.

Modelling choices:
  * numpy floating-point arithmetic is embedded over `ℝ`; each dataframe
    column assignment becomes a scalar function of the columns it reads, and
    each dataframe-mutating function becomes a `List Row → List Row` map.
  * Mathlib's `Real.arccos` is total (it clamps outside `[-1, 1]`) and
    `Real.sqrt` of a negative number is `0`, whereas numpy produces NaN for
    these domain errors.  A second, NaN-faithful variant of the monthly chain
    is therefore given over `Option ℝ` (`none` models a non-finite result:
    NaN from `arccos` outside `[-1,1]`, `sqrt` of a negative, or `x / 0`);
    it mirrors numpy's NaN propagation through every downstream column and
    through the dot product of the annual objective.
  * the input CSV (`Inputs/LocationSolarData.csv`) is not part of the
    repository; the monthly records (horizontal insolation, albedo) are
    passed as an explicit list parameter.
  * `scipy.optimize.minimize` is an external black box; only the objective
    function `calcAWAIforOptim` that the code hands to it is embedded.
-/

noncomputable section

namespace fChart

open Real
open scoped Classical

/-- np.deg2rad: degrees to radians. -/
def deg2rad (x : ℝ) : ℝ := x * Real.pi / 180

/-- np.rad2deg: radians to degrees. -/
def rad2deg (x : ℝ) : ℝ := x * 180 / Real.pi

/-- The hardcoded representative day-of-year for each month (source line 25). -/
def typicalDays : List ℝ := [17, 47, 75, 105, 135, 162, 198, 228, 258, 288, 318, 344]

/-- Column `declination` (source line 26). -/
def declination (n : ℝ) : ℝ := 23.45 * sin (deg2rad (360 / 365 * (284 + n)))

/-- Column `Isc_prime` (source lines 27-31). -/
def Isc_prime (solar_cons n : ℝ) : ℝ :=
  solar_cons * (1.00011 +
    0.034221 * cos (deg2rad (1 * ((n - 1) * 360 / 365))) +
    0.001280 * sin (deg2rad (1 * ((n - 1) * 360 / 365))) +
    0.000719 * cos (deg2rad (2 * ((n - 1) * 360 / 365))) +
    0.000077 * sin (deg2rad (2 * ((n - 1) * 360 / 365))))

/-- Column `sunset_hour_angle` (source lines 44-45). -/
def sunset_hour_angle (latitude declination : ℝ) : ℝ :=
  rad2deg (arccos ((-tan (deg2rad latitude)) * tan (deg2rad declination)))

/-- Column `ET_insol` (source lines 46-49). -/
def ET_insol (Isc_prime latitude declination sunset_hour_angle : ℝ) : ℝ :=
  (24 / Real.pi) * (Isc_prime / 1000) *
    (cos (deg2rad latitude) * cos (deg2rad declination) * sin (deg2rad sunset_hour_angle) +
     deg2rad sunset_hour_angle * sin (deg2rad latitude) * sin (deg2rad declination))

/-- Column `clearness` (source line 50). -/
def clearness (insolation_horizontal ET_insol : ℝ) : ℝ := insolation_horizontal / ET_insol

/-- Column `diffuse_fraction` (source line 52): the literal quotient
`x * f(k) / x` is kept as written, not algebraically cancelled. -/
def diffuse_fraction (insolation_horizontal clearness : ℝ) : ℝ :=
  insolation_horizontal *
    (1.39 - 4.027 * clearness + 5.531 * clearness ^ 2 - 3.108 * clearness ^ 3) /
  insolation_horizontal

/-- Column `a` (source line 60). -/
def a (sunset_hour_angle : ℝ) : ℝ :=
  0.409 + 0.5016 * sin (deg2rad (sunset_hour_angle - 60))

/-- Column `b` (source line 62). -/
def b (sunset_hour_angle : ℝ) : ℝ :=
  0.6609 - 0.4767 * sin (deg2rad (sunset_hour_angle - 60))

/-- Column `d` (source line 63), exactly as written: the `deg2rad` is applied
to the product `sunset_hour_angle * cos (deg2rad sunset_hour_angle)`. -/
def d (sunset_hour_angle : ℝ) : ℝ :=
  sin (deg2rad sunset_hour_angle) -
    deg2rad (sunset_hour_angle * cos (deg2rad sunset_hour_angle))

/-- Column `A` (source line 64). -/
def A (latitude azimuth slope : ℝ) : ℝ :=
  cos (deg2rad slope) + tan (deg2rad latitude) * cos (deg2rad azimuth) * sin (deg2rad slope)

/-- Column `B` (source line 65). -/
def B (sunset_hour_angle declination azimuth slope : ℝ) : ℝ :=
  cos (deg2rad sunset_hour_angle) * cos (deg2rad slope) +
    tan (deg2rad declination) * sin (deg2rad slope) * cos (deg2rad azimuth)

/-- Column `C` (source line 66). -/
def C (latitude azimuth slope : ℝ) : ℝ :=
  sin (deg2rad slope) * sin (deg2rad azimuth) / cos (deg2rad latitude)

/-- Column `omega_sr_abs` (source lines 67-72). -/
def omega_sr_abs (sunset_hour_angle A B C : ℝ) : ℝ :=
  |min sunset_hour_angle
    (rad2deg (arccos ((A * B + C * Real.sqrt (A ^ 2 - B ^ 2 + C ^ 2)) / (A ^ 2 + C ^ 2))))|

/-- Column `omega_sr` (source lines 73-77). -/
def omega_sr (sunset_hour_angle A B C : ℝ) : ℝ :=
  if (A > 0 ∧ B > 0) ∨ A ≥ B then -omega_sr_abs sunset_hour_angle A B C
  else omega_sr_abs sunset_hour_angle A B C

/-- Column `omega_ss_abs` (source lines 78-83): minus sign on the sqrt term. -/
def omega_ss_abs (sunset_hour_angle A B C : ℝ) : ℝ :=
  |min sunset_hour_angle
    (rad2deg (arccos ((A * B - C * Real.sqrt (A ^ 2 - B ^ 2 + C ^ 2)) / (A ^ 2 + C ^ 2))))|

/-- Column `omega_ss` (source lines 84-88). -/
def omega_ss (sunset_hour_angle A B C : ℝ) : ℝ :=
  if (A > 0 ∧ B > 0) ∨ A ≥ B then omega_ss_abs sunset_hour_angle A B C
  else -omega_ss_abs sunset_hour_angle A B C

/-- Column `D` (source lines 89-124), transcribed bracket-for-bracket.
In the `omega_ss ≥ omega_sr` branch a single closed-form integral over
`[omega_sr, omega_ss]` is divided by `2d` and floored at 0; in the other
branch the two integrals over `[-sunset_hour_angle, omega_ss]` and
`[omega_sr, sunset_hour_angle]` are summed and the sum is floored at 0 by
the one `np.maximum` of that branch (source line 102). -/
def D (a_prime b d A B C sunset_hour_angle omega_sr omega_ss : ℝ) : ℝ :=
  if omega_ss ≥ omega_sr then
    max 0 ((1 / (2 * d)) *
      (deg2rad ((b * A / 2 - a_prime * B) * (omega_ss - omega_sr)) +
       (a_prime * A - b * B) * (sin (deg2rad omega_ss) - sin (deg2rad omega_sr)) -
       a_prime * C * (cos (deg2rad omega_ss) - cos (deg2rad omega_sr)) +
       (b * A / 2) * (sin (deg2rad omega_ss) * cos (deg2rad omega_ss) -
                      sin (deg2rad omega_sr) * cos (deg2rad omega_sr)) +
       (b * C / 2) * (sin (deg2rad omega_ss) ^ 2 - sin (deg2rad omega_sr) ^ 2)))
  else
    max 0 ((1 / (2 * d)) *
      (deg2rad ((b * A / 2 - a_prime * B) * (omega_ss - -sunset_hour_angle)) +
       (a_prime * A - b * B) * (sin (deg2rad omega_ss) - sin (deg2rad (-sunset_hour_angle))) -
       a_prime * C * (cos (deg2rad omega_ss) - cos (deg2rad (-sunset_hour_angle))) +
       (b * A / 2) * (sin (deg2rad omega_ss) * cos (deg2rad omega_ss) -
                      sin (deg2rad (-sunset_hour_angle)) * cos (deg2rad (-sunset_hour_angle))) +
       (b * C / 2) * (sin (deg2rad omega_ss) ^ 2 - sin (deg2rad (-sunset_hour_angle)) ^ 2)) +
      (1 / (2 * d)) *
      (deg2rad ((b * A / 2 - a_prime * B) * (sunset_hour_angle - omega_sr)) +
       (a_prime * A - b * B) * (sin (deg2rad sunset_hour_angle) - sin (deg2rad omega_sr)) -
       a_prime * C * (cos (deg2rad sunset_hour_angle) - cos (deg2rad omega_sr)) +
       (b * A / 2) * (sin (deg2rad sunset_hour_angle) * cos (deg2rad sunset_hour_angle) -
                      sin (deg2rad omega_sr) * cos (deg2rad omega_sr)) +
       (b * C / 2) * (sin (deg2rad sunset_hour_angle) ^ 2 - sin (deg2rad omega_sr) ^ 2)))

/-- The closed-form definite integral appearing in `D`, over `[lo, hi]`:
a linear-in-angle term, sine differences, cosine differences, sin·cos and
sin² differences, with coefficients `a_prime, b, A, B, C`. -/
def integralPiece (a_prime b A B C lo hi : ℝ) : ℝ :=
  deg2rad ((b * A / 2 - a_prime * B) * (hi - lo)) +
  (a_prime * A - b * B) * (sin (deg2rad hi) - sin (deg2rad lo)) -
  a_prime * C * (cos (deg2rad hi) - cos (deg2rad lo)) +
  (b * A / 2) * (sin (deg2rad hi) * cos (deg2rad hi) - sin (deg2rad lo) * cos (deg2rad lo)) +
  (b * C / 2) * (sin (deg2rad hi) ^ 2 - sin (deg2rad lo) ^ 2)

/-- Modelled from the spec: the tilt factor as the spec describes it, with the
two integrals of the wrap-around branch each floored at 0 independently
before being summed.  This is the claimed (spec-side) variant, to be compared
with `D` above, which is transcribed from the source. -/
def D_specIndependentFloors (a_prime b d A B C sunset_hour_angle omega_sr omega_ss : ℝ) : ℝ :=
  if omega_ss ≥ omega_sr then
    max 0 ((1 / (2 * d)) * integralPiece a_prime b A B C omega_sr omega_ss)
  else
    max 0 ((1 / (2 * d)) * integralPiece a_prime b A B C (-sunset_hour_angle) omega_ss) +
    max 0 ((1 / (2 * d)) * integralPiece a_prime b A B C omega_sr sunset_hour_angle)

/-- One dataframe row: the input columns plus every computed column.
Columns that have not been computed yet hold the default `0`. -/
structure Row where
  n : ℝ := 0
  insolation_horizontal : ℝ := 0
  albedo : ℝ := 0
  declination : ℝ := 0
  Isc_prime : ℝ := 0
  sunset_hour_angle : ℝ := 0
  ET_insol : ℝ := 0
  clearness : ℝ := 0
  diffuse_fraction : ℝ := 0
  a : ℝ := 0
  a_prime : ℝ := 0
  b : ℝ := 0
  d : ℝ := 0
  A : ℝ := 0
  B : ℝ := 0
  C : ℝ := 0
  omega_sr_abs : ℝ := 0
  omega_sr : ℝ := 0
  omega_ss_abs : ℝ := 0
  omega_ss : ℝ := 0
  D : ℝ := 0
  r_bar : ℝ := 0
  insolation_tilted : ℝ := 0

/-- `addStandardColumns` (source lines 14-32): overwrites the day-of-year
column with `typicalDays` and derives declination and `Isc_prime`.
The Python default `solar_cons = 1367` is passed explicitly by callers. -/
def addStandardColumns (df : List Row) (solar_cons : ℝ) : List Row :=
  List.zipWith
    (fun r nv =>
      { r with
        n := nv
        declination := declination nv
        Isc_prime := Isc_prime solar_cons nv })
    df typicalDays

/-- `addCalcSolarVars` (source lines 34-53). -/
def addCalcSolarVars (df : List Row) (latitude : ℝ) : List Row :=
  df.map fun r =>
    let ws := sunset_hour_angle latitude r.declination
    let et := ET_insol r.Isc_prime latitude r.declination ws
    let k := clearness r.insolation_horizontal et
    { r with
      sunset_hour_angle := ws
      ET_insol := et
      clearness := k
      diffuse_fraction := diffuse_fraction r.insolation_horizontal k }

/-- `addCalcMethodVars` (source lines 55-130). -/
def addCalcMethodVars (df : List Row) (latitude azimuth slope : ℝ) : List Row :=
  df.map fun r =>
    let av := a r.sunset_hour_angle
    let apv := av - r.diffuse_fraction
    let bv := b r.sunset_hour_angle
    let dv := d r.sunset_hour_angle
    let Av := A latitude azimuth slope
    let Bv := B r.sunset_hour_angle r.declination azimuth slope
    let Cv := C latitude azimuth slope
    let srAbs := omega_sr_abs r.sunset_hour_angle Av Bv Cv
    let sr := omega_sr r.sunset_hour_angle Av Bv Cv
    let ssAbs := omega_ss_abs r.sunset_hour_angle Av Bv Cv
    let ss := omega_ss r.sunset_hour_angle Av Bv Cv
    let Dv := D apv bv dv Av Bv Cv r.sunset_hour_angle sr ss
    { r with
      a := av
      a_prime := apv
      b := bv
      d := dv
      A := Av
      B := Bv
      C := Cv
      omega_sr_abs := srAbs
      omega_sr := sr
      omega_ss_abs := ssAbs
      omega_ss := ss
      D := Dv
      r_bar := Dv + r.diffuse_fraction * (1 + cos (deg2rad slope)) / 2 +
               r.albedo * (1 - cos (deg2rad slope)) / 2 }

/-- `calcTotalInsolation` (source lines 132-142); the CSV read is replaced by
the explicit `data` parameter. -/
def calcTotalInsolation (data : List Row) (latitude slope azimuth : ℝ) : List Row :=
  (addCalcMethodVars (addCalcSolarVars (addStandardColumns data 1367) latitude)
      latitude azimuth slope).map
    fun r => { r with insolation_tilted := r.r_bar * r.insolation_horizontal }

/-- The fixed day-count weight vector (source lines 151 and 162). -/
def dayCountWeights : List ℝ := [31, 28, 31, 30, 31, 30, 31, 31, 30, 31, 30, 31]

/-- np.dot on equal-length 1-D vectors. -/
def dotProduct (xs ys : List ℝ) : ℝ := (List.zipWith (fun x y => x * y) xs ys).sum

/-- `calcAnnualWeightedAveInsolation` (source lines 144-153). -/
def calcAnnualWeightedAveInsolation (data : List Row) (latitude slope azimuth : ℝ) : ℝ :=
  dotProduct dayCountWeights
    ((calcTotalInsolation data latitude slope azimuth).map Row.insolation_tilted) / 365

/-- `calcAWAIforOptim` (source lines 155-164): identical computation with the
slope/azimuth packed in a pair and the division by `-365.0`. -/
def calcAWAIforOptim (slopeaz : ℝ × ℝ) (latitude : ℝ) (data : List Row) : ℝ :=
  dotProduct dayCountWeights
    ((calcTotalInsolation data latitude slopeaz.1 slopeaz.2).map Row.insolation_tilted) / (-365)

/-! ### NaN-faithful variant of the monthly chain

`none` models numpy's non-finite results (NaN from `arccos` outside
`[-1, 1]` or `sqrt` of a negative, NaN/inf from division by zero); every
lifted operation propagates `none` exactly as numpy propagates NaN. -/

/-- Lift a total binary operation; NaN in either argument propagates. -/
def omap2 (f : ℝ → ℝ → ℝ) : Option ℝ → Option ℝ → Option ℝ
  | some x, some y => some (f x y)
  | _, _ => none

/-- Division; a zero denominator yields a non-finite result. -/
def odiv : Option ℝ → Option ℝ → Option ℝ
  | some x, some y => if y = 0 then none else some (x / y)
  | _, _ => none

/-- Square root; a negative argument yields NaN. -/
def osqrt : Option ℝ → Option ℝ
  | some x => if x < 0 then none else some (Real.sqrt x)
  | none => none

/-- Arc cosine; an argument outside `[-1, 1]` yields NaN. -/
def oarccos : Option ℝ → Option ℝ
  | some x => if x < -1 ∨ 1 < x then none else some (arccos x)
  | none => none

/-- NaN-propagating sum (np.dot's reduction). -/
def osum (xs : List (Option ℝ)) : Option ℝ := xs.foldr (omap2 (fun x y => x + y)) (some 0)

/-- `sunset_hour_angle` with the arccos domain failure surfaced. -/
def sunset_hour_angleN (latitude declination : ℝ) : Option ℝ :=
  Option.map rad2deg
    (oarccos (some ((-tan (deg2rad latitude)) * tan (deg2rad declination))))

/-- `ET_insol` lifted over a possibly-NaN sunset hour angle. -/
def ET_insolN (isc latitude declination : ℝ) (ws : Option ℝ) : Option ℝ :=
  ws.map fun w => ET_insol isc latitude declination w

/-- `clearness` with the division failure surfaced. -/
def clearnessN (insolation_horizontal : ℝ) (et : Option ℝ) : Option ℝ :=
  odiv (some insolation_horizontal) et

/-- `diffuse_fraction` (source line 52) with the literal division by
`insolation_horizontal` surfaced: at `insolation_horizontal = 0` the
numerator is also `0` and numpy's `0/0` is NaN. -/
def diffuse_fractionN (insolation_horizontal : ℝ) (k : Option ℝ) : Option ℝ :=
  odiv
    (omap2
      (fun h kk => h * (1.39 - 4.027 * kk + 5.531 * kk ^ 2 - 3.108 * kk ^ 3))
      (some insolation_horizontal) k)
    (some insolation_horizontal)

/-- Column `C` with the division by `cos latitude` surfaced. -/
def CN (latitude azimuth slope : ℝ) : Option ℝ :=
  odiv (some (sin (deg2rad slope) * sin (deg2rad azimuth))) (some (cos (deg2rad latitude)))

/-- Column `omega_sr_abs` with the sqrt/arccos/division failures surfaced. -/
def omega_sr_absN (ws : Option ℝ) (Av : ℝ) (BO CO : Option ℝ) : Option ℝ :=
  let sq := osqrt (omap2 (fun Bv Cv => Av ^ 2 - Bv ^ 2 + Cv ^ 2) BO CO)
  let num := omap2 (fun Bv t => Av * Bv + t) BO (omap2 (fun Cv s => Cv * s) CO sq)
  let den := Option.map (fun Cv => Av ^ 2 + Cv ^ 2) CO
  Option.map (fun x => |x|) (omap2 min ws (Option.map rad2deg (oarccos (odiv num den))))

/-- Column `omega_ss_abs`, minus sign on the sqrt term. -/
def omega_ss_absN (ws : Option ℝ) (Av : ℝ) (BO CO : Option ℝ) : Option ℝ :=
  let sq := osqrt (omap2 (fun Bv Cv => Av ^ 2 - Bv ^ 2 + Cv ^ 2) BO CO)
  let num := omap2 (fun Bv t => Av * Bv - t) BO (omap2 (fun Cv s => Cv * s) CO sq)
  let den := Option.map (fun Cv => Av ^ 2 + Cv ^ 2) CO
  Option.map (fun x => |x|) (omap2 min ws (Option.map rad2deg (oarccos (odiv num den))))

/-- The full monthly chain for one record, from the typical day and the input
insolation/albedo to the tilted insolation, in NaN-faithful form. -/
def monthTiltedN (nv insolation albedo latitude slope azimuth : ℝ) : Option ℝ :=
  let dec := declination nv
  let isc := Isc_prime 1367 nv
  let ws := sunset_hour_angleN latitude dec
  let et := ET_insolN isc latitude dec ws
  let k := clearnessN insolation et
  let dfr := diffuse_fractionN insolation k
  let aO := Option.map a ws
  let apO := omap2 (fun x y => x - y) aO dfr
  let bO := Option.map b ws
  let dO := Option.map d ws
  let Av := A latitude azimuth slope
  let BO := Option.map (fun w => B w dec azimuth slope) ws
  let CO := CN latitude azimuth slope
  let srAbs := omega_sr_absN ws Av BO CO
  let ssAbs := omega_ss_absN ws Av BO CO
  let srO := omap2 (fun Bv v => if (Av > 0 ∧ Bv > 0) ∨ Av ≥ Bv then -v else v) BO srAbs
  let ssO := omap2 (fun Bv v => if (Av > 0 ∧ Bv > 0) ∨ Av ≥ Bv then v else -v) BO ssAbs
  let DO := apO.bind fun ap => bO.bind fun bv => dO.bind fun dv => BO.bind fun Bv =>
            CO.bind fun Cv => ws.bind fun w => srO.bind fun sr => ssO.bind fun ss =>
            some (D ap bv dv Av Bv Cv w sr ss)
  let rbO := omap2
    (fun Dv dfv => Dv + dfv * (1 + cos (deg2rad slope)) / 2 +
                   albedo * (1 - cos (deg2rad slope)) / 2) DO dfr
  Option.map (fun rb => rb * insolation) rbO

/-- The optimizer objective in NaN-faithful form: the data rows are
(insolation, albedo) pairs; the day-of-year column is the hardcoded
`typicalDays`, as in the pipeline. -/
def calcAWAIforOptimN (slopeaz : ℝ × ℝ) (latitude : ℝ) (data : List (ℝ × ℝ)) : Option ℝ :=
  Option.map (fun s => s / (-365))
    (osum (List.zipWith (fun w t => Option.map (fun v => w * v) t) dayCountWeights
      (List.zipWith (fun nv p => monthTiltedN nv p.1 p.2 latitude slopeaz.1 slopeaz.2)
        typicalDays data)))

/-! ### Basic conversion lemmas -/

lemma deg2rad_zero : deg2rad 0 = 0 := by unfold deg2rad; ring

lemma deg2rad_neg (x : ℝ) : deg2rad (-x) = -deg2rad x := by unfold deg2rad; ring

lemma deg2rad_ninety : deg2rad 90 = Real.pi / 2 := by unfold deg2rad; ring

lemma deg2rad_rad2deg (x : ℝ) : deg2rad (rad2deg x) = x := by
  unfold deg2rad rad2deg
  field_simp

lemma rad2deg_pi_div_two : rad2deg (Real.pi / 2) = 90 := by
  unfold rad2deg
  field_simp
  ring

lemma deg2rad_mul (x y : ℝ) : deg2rad (x * y) = x * deg2rad y := by
  unfold deg2rad
  ring

lemma deg2rad_sub (x y : ℝ) : deg2rad (x - y) = deg2rad x - deg2rad y := by
  unfold deg2rad
  ring

/-- At slope 0 the sign-selection condition always holds (`A = 1 ≥ B = cos`),
the tilted window is the whole day `[-ωs, ωs]`, and the single-integral
branch of `D` collapses to `a' + b (ωs_rad - sin ωs cos ωs) / (2d)`. -/
lemma rbar_slope_zero (latitude azimuth dec dfr albedo t : ℝ) :
    D (a (rad2deg (arccos t)) - dfr) (b (rad2deg (arccos t))) (d (rad2deg (arccos t)))
        (A latitude azimuth 0) (B (rad2deg (arccos t)) dec azimuth 0) (C latitude azimuth 0)
        (rad2deg (arccos t))
        (omega_sr (rad2deg (arccos t)) (A latitude azimuth 0)
          (B (rad2deg (arccos t)) dec azimuth 0) (C latitude azimuth 0))
        (omega_ss (rad2deg (arccos t)) (A latitude azimuth 0)
          (B (rad2deg (arccos t)) dec azimuth 0) (C latitude azimuth 0)) +
      dfr * (1 + cos (deg2rad 0)) / 2 + albedo * (1 - cos (deg2rad 0)) / 2 =
    max 0 ((1 / (2 * d (rad2deg (arccos t)))) *
      (2 * (a (rad2deg (arccos t)) - dfr) * d (rad2deg (arccos t)) +
       b (rad2deg (arccos t)) *
         (deg2rad (rad2deg (arccos t)) -
          sin (deg2rad (rad2deg (arccos t))) * cos (deg2rad (rad2deg (arccos t)))))) +
      dfr := by
  have hθ0 : 0 ≤ arccos t := Real.arccos_nonneg t
  have hθπ : arccos t ≤ Real.pi := Real.arccos_le_pi t
  have hws0 : 0 ≤ rad2deg (arccos t) := by
    unfold rad2deg
    have hπ := Real.pi_pos
    positivity
  have hA : A latitude azimuth 0 = 1 := by
    unfold A
    rw [deg2rad_zero]
    simp
  have hB : B (rad2deg (arccos t)) dec azimuth 0 = cos (arccos t) := by
    unfold B
    rw [deg2rad_zero, deg2rad_rad2deg]
    simp
  have hC : C latitude azimuth 0 = 0 := by
    unfold C
    rw [deg2rad_zero]
    simp
  have habs_sr : omega_sr_abs (rad2deg (arccos t)) 1 (cos (arccos t)) 0 = rad2deg (arccos t) := by
    unfold omega_sr_abs
    rw [show (1 * cos (arccos t) +
          0 * Real.sqrt (1 ^ 2 - cos (arccos t) ^ 2 + 0 ^ 2)) / ((1 : ℝ) ^ 2 + 0 ^ 2) =
        cos (arccos t) from by ring,
      Real.arccos_cos hθ0 hθπ, min_self, abs_of_nonneg hws0]
  have habs_ss : omega_ss_abs (rad2deg (arccos t)) 1 (cos (arccos t)) 0 = rad2deg (arccos t) := by
    unfold omega_ss_abs
    rw [show (1 * cos (arccos t) -
          0 * Real.sqrt (1 ^ 2 - cos (arccos t) ^ 2 + 0 ^ 2)) / ((1 : ℝ) ^ 2 + 0 ^ 2) =
        cos (arccos t) from by ring,
      Real.arccos_cos hθ0 hθπ, min_self, abs_of_nonneg hws0]
  have hcond : ((1 : ℝ) > 0 ∧ cos (arccos t) > 0) ∨ (1 : ℝ) ≥ cos (arccos t) :=
    Or.inr (Real.cos_le_one _)
  have hsr : omega_sr (rad2deg (arccos t)) 1 (cos (arccos t)) 0 = -rad2deg (arccos t) := by
    unfold omega_sr
    rw [if_pos hcond, habs_sr]
  have hss : omega_ss (rad2deg (arccos t)) 1 (cos (arccos t)) 0 = rad2deg (arccos t) := by
    unfold omega_ss
    rw [if_pos hcond, habs_ss]
  have hd : d (rad2deg (arccos t)) = sin (arccos t) - arccos t * cos (arccos t) := by
    unfold d
    rw [deg2rad_rad2deg]
    rw [show deg2rad (rad2deg (arccos t) * cos (arccos t)) =
        arccos t * cos (arccos t) from by
      unfold deg2rad rad2deg
      field_simp
      ring]
  rw [hA, hB, hC, hsr, hss]
  unfold D
  rw [if_pos (by linarith : rad2deg (arccos t) ≥ -rad2deg (arccos t))]
  rw [deg2rad_zero, Real.cos_zero, deg2rad_neg, deg2rad_rad2deg]
  simp only [Real.sin_neg, Real.cos_neg]
  rw [hd, deg2rad_mul, deg2rad_sub, deg2rad_neg, deg2rad_rad2deg]
  rw [show max 0 ((1 / (2 * (sin (arccos t) - arccos t * cos (arccos t)))) *
      ((b (rad2deg (arccos t)) * 1 / 2 - (a (rad2deg (arccos t)) - dfr) * cos (arccos t)) *
          (arccos t - -arccos t) +
        ((a (rad2deg (arccos t)) - dfr) * 1 - b (rad2deg (arccos t)) * cos (arccos t)) *
          (sin (arccos t) - -sin (arccos t)) -
        (a (rad2deg (arccos t)) - dfr) * 0 * (cos (arccos t) - cos (arccos t)) +
        b (rad2deg (arccos t)) * 1 / 2 *
          (sin (arccos t) * cos (arccos t) - -sin (arccos t) * cos (arccos t)) +
        b (rad2deg (arccos t)) * 0 / 2 *
          (sin (arccos t) ^ 2 - (-sin (arccos t)) ^ 2))) =
      max 0 ((1 / (2 * (sin (arccos t) - arccos t * cos (arccos t)))) *
        (2 * (a (rad2deg (arccos t)) - dfr) * (sin (arccos t) - arccos t * cos (arccos t)) +
          b (rad2deg (arccos t)) *
            (arccos t - sin (arccos t) * cos (arccos t)))) from by
    congr 1
    ring]
  ring

lemma sha_lat0 (dec : ℝ) : sunset_hour_angle 0 dec = 90 := by
  unfold sunset_hour_angle
  rw [deg2rad_zero, Real.tan_zero, neg_zero, zero_mul, Real.arccos_zero, rad2deg_pi_div_two]

lemma a_ninety : a 90 = 0.6598 := by
  unfold a
  rw [show (90 : ℝ) - 60 = 30 from by norm_num,
    show deg2rad 30 = Real.pi / 6 from by unfold deg2rad; ring, Real.sin_pi_div_six]
  norm_num

lemma b_ninety : b 90 = 0.42255 := by
  unfold b
  rw [show (90 : ℝ) - 60 = 30 from by norm_num,
    show deg2rad 30 = Real.pi / 6 from by unfold deg2rad; ring, Real.sin_pi_div_six]
  norm_num

lemma d_ninety : d 90 = 1 := by
  unfold d
  rw [deg2rad_ninety, Real.cos_pi_div_two, Real.sin_pi_div_two, mul_zero, deg2rad_zero]
  norm_num

lemma A_zero_lat0 : A 0 0 0 = 1 := by
  unfold A
  rw [deg2rad_zero]
  simp

lemma B_90_slope0 (dec : ℝ) : B 90 dec 0 0 = 0 := by
  unfold B
  rw [deg2rad_zero, deg2rad_ninety]
  simp [Real.cos_pi_div_two]

lemma C_zero : C 0 0 0 = 0 := by
  unfold C
  rw [deg2rad_zero]
  simp

lemma omega_sr_abs_90 : omega_sr_abs 90 1 0 0 = 90 := by
  unfold omega_sr_abs
  rw [show ((1 : ℝ) * 0 + 0 * Real.sqrt (1 ^ 2 - 0 ^ 2 + 0 ^ 2)) / (1 ^ 2 + 0 ^ 2) = 0 from by
      norm_num,
    Real.arccos_zero, rad2deg_pi_div_two, min_self, abs_of_nonneg (by norm_num : (0 : ℝ) ≤ 90)]

lemma omega_ss_abs_90 : omega_ss_abs 90 1 0 0 = 90 := by
  unfold omega_ss_abs
  rw [show ((1 : ℝ) * 0 - 0 * Real.sqrt (1 ^ 2 - 0 ^ 2 + 0 ^ 2)) / (1 ^ 2 + 0 ^ 2) = 0 from by
      norm_num,
    Real.arccos_zero, rad2deg_pi_div_two, min_self, abs_of_nonneg (by norm_num : (0 : ℝ) ≤ 90)]

lemma omega_sr_90 : omega_sr 90 1 0 0 = -90 := by
  unfold omega_sr
  rw [if_pos (Or.inr (by norm_num : (1 : ℝ) ≥ 0)), omega_sr_abs_90]

lemma omega_ss_90 : omega_ss 90 1 0 0 = 90 := by
  unfold omega_ss
  rw [if_pos (Or.inr (by norm_num : (1 : ℝ) ≥ 0)), omega_ss_abs_90]

lemma D_eval_slope0_90 (ap : ℝ) (hap : 0 ≤ ap) :
    D ap 0.42255 1 1 0 0 90 (-90) 90 = ap + 0.1056375 * Real.pi := by
  unfold D
  rw [if_pos (by norm_num : (90 : ℝ) ≥ -90)]
  rw [deg2rad_ninety, show deg2rad (-90) = -(Real.pi / 2) from by unfold deg2rad; ring]
  simp only [Real.sin_neg, Real.cos_neg, Real.sin_pi_div_two, Real.cos_pi_div_two]
  unfold deg2rad
  rw [max_eq_right (by nlinarith [Real.pi_pos])]
  ring

lemma Isc_prime_pos (n : ℝ) : 0 < Isc_prime 1367 n := by
  unfold Isc_prime
  nlinarith [Real.neg_one_le_cos (deg2rad (1 * ((n - 1) * 360 / 365))),
    Real.neg_one_le_sin (deg2rad (1 * ((n - 1) * 360 / 365))),
    Real.neg_one_le_cos (deg2rad (2 * ((n - 1) * 360 / 365))),
    Real.neg_one_le_sin (deg2rad (2 * ((n - 1) * 360 / 365)))]

lemma declination_abs_le (n : ℝ) : |declination n| ≤ 23.45 := by
  unfold declination
  rw [abs_mul, abs_of_pos (by norm_num : (0 : ℝ) < 23.45)]
  nlinarith [Real.abs_sin_le_one (deg2rad (360 / 365 * (284 + n))),
    abs_nonneg (sin (deg2rad (360 / 365 * (284 + n))))]

lemma cos_deg2rad_decl_pos (n : ℝ) : 0 < cos (deg2rad (declination n)) := by
  have h := abs_le.mp (declination_abs_le n)
  apply Real.cos_pos_of_mem_Ioo
  unfold deg2rad
  constructor
  · nlinarith [mul_pos (show (0 : ℝ) < declination n + 90 from by linarith) Real.pi_pos]
  · nlinarith [mul_pos (show (0 : ℝ) < 90 - declination n from by linarith) Real.pi_pos]

lemma ET90_lat0_pos (n : ℝ) : 0 < ET_insol (Isc_prime 1367 n) 0 (declination n) 90 := by
  unfold ET_insol
  rw [deg2rad_zero, deg2rad_ninety]
  simp only [Real.sin_pi_div_two, Real.sin_zero, Real.cos_zero, one_mul, mul_one, mul_zero,
    zero_mul, add_zero]
  have h1 := Isc_prime_pos n
  have h2 := cos_deg2rad_decl_pos n
  have h3 := Real.pi_pos
  positivity

lemma deg2rad_arg17 : deg2rad (360 / 365 * (284 + 17)) = 602 / 365 * Real.pi := by
  unfold deg2rad
  ring

lemma sin_arg17_neg : sin (602 / 365 * Real.pi) < 0 := by
  have h1 : (0 : ℝ) < 602 / 365 * Real.pi - Real.pi := by nlinarith [Real.pi_pos]
  have h2 : 602 / 365 * Real.pi - Real.pi < Real.pi := by nlinarith [Real.pi_pos]
  have h3 := Real.sin_pos_of_pos_of_lt_pi h1 h2
  rw [Real.sin_sub_pi] at h3
  linarith

lemma decl17_lt_zero : declination 17 < 0 := by
  unfold declination
  rw [deg2rad_arg17]
  nlinarith [sin_arg17_neg]

lemma decl17_ge : -23.45 ≤ declination 17 := by
  unfold declination
  rw [deg2rad_arg17]
  nlinarith [Real.neg_one_le_sin (602 / 365 * Real.pi)]

lemma tan_decl17_neg : tan (deg2rad (declination 17)) < 0 := by
  have h1 : deg2rad (declination 17) < 0 := by
    unfold deg2rad
    nlinarith [mul_pos (show (0 : ℝ) < -declination 17 from by linarith [decl17_lt_zero])
      Real.pi_pos]
  have h2 : -(Real.pi / 2) < deg2rad (declination 17) := by
    unfold deg2rad
    nlinarith [mul_pos (show (0 : ℝ) < declination 17 + 90 from by linarith [decl17_ge])
      Real.pi_pos]
  rw [Real.tan_eq_sin_div_cos]
  apply div_neg_of_neg_of_pos
  · exact Real.sin_neg_of_neg_of_neg_pi_lt h1 (by nlinarith [Real.pi_pos])
  · exact Real.cos_pos_of_mem_Ioo ⟨h2, by nlinarith [Real.pi_pos]⟩

lemma shaN_lat0 (dec : ℝ) : sunset_hour_angleN 0 dec = some 90 := by
  unfold sunset_hour_angleN
  rw [deg2rad_zero, Real.tan_zero, neg_zero, zero_mul]
  rw [show oarccos (some (0 : ℝ)) = some (Real.pi / 2) from by
    simp only [oarccos]
    rw [if_neg (by norm_num : ¬((0 : ℝ) < -1 ∨ (1 : ℝ) < 0)), Real.arccos_zero]]
  simp [rad2deg_pi_div_two]

lemma A_lat0_slope90 : A 0 0 90 = 0 := by
  unfold A
  rw [deg2rad_zero, deg2rad_ninety]
  simp [Real.cos_pi_div_two]

lemma B_90_slope90 : B 90 (declination 17) 0 90 = tan (deg2rad (declination 17)) := by
  unfold B
  rw [deg2rad_zero, deg2rad_ninety]
  simp [Real.cos_pi_div_two, Real.sin_pi_div_two]

lemma CN_lat0_slope90 : CN 0 0 90 = some 0 := by
  unfold CN
  rw [deg2rad_zero]
  simp only [odiv]
  rw [if_neg (by simp : ¬(cos (0 : ℝ) = 0))]
  simp

lemma omega_sr_absN_none (t : ℝ) (ht : t ≠ 0) :
    omega_sr_absN (some 90) 0 (some t) (some 0) = none := by
  have ht2 : (0 : ℝ) ^ 2 - t ^ 2 + 0 ^ 2 < 0 := by
    nlinarith [lt_of_le_of_ne (sq_nonneg t) (Ne.symm (pow_ne_zero 2 ht))]
  unfold omega_sr_absN
  simp only [omap2, osqrt]
  rw [if_pos ht2]
  simp [omap2, odiv, oarccos]

lemma omega_ss_absN_none (t : ℝ) (ht : t ≠ 0) :
    omega_ss_absN (some 90) 0 (some t) (some 0) = none := by
  have ht2 : (0 : ℝ) ^ 2 - t ^ 2 + 0 ^ 2 < 0 := by
    nlinarith [lt_of_le_of_ne (sq_nonneg t) (Ne.symm (pow_ne_zero 2 ht))]
  unfold omega_ss_absN
  simp only [omap2, osqrt]
  rw [if_pos ht2]
  simp [omap2, odiv, oarccos]

/-- At latitude 0, slope 90, azimuth 0, the January record hits the
`sqrt(A² - B² + C²)` domain error (`A = 0`, `C = 0`, `B = tan(declination)`),
and the NaN propagates through every downstream column to the tilted
insolation. -/
lemma monthTiltedN_17_none : monthTiltedN 17 1 0.2 0 90 0 = none := by
  have hEne : ET_insol (Isc_prime 1367 17) 0 (declination 17) 90 ≠ 0 :=
    ne_of_gt (ET90_lat0_pos 17)
  have htan : tan (deg2rad (declination 17)) ≠ 0 := ne_of_lt tan_decl17_neg
  simp only [monthTiltedN]
  rw [shaN_lat0, A_lat0_slope90, CN_lat0_slope90]
  simp only [ET_insolN, Option.map_some', B_90_slope90]
  rw [omega_sr_absN_none _ htan, omega_ss_absN_none _ htan]
  simp only [omap2, clearnessN, diffuse_fractionN, odiv]
  rw [if_neg hEne]
  dsimp only
  rw [if_neg (one_ne_zero : (1 : ℝ) ≠ 0)]
  dsimp only
  simp [Option.some_bind, Option.none_bind]

/-- C8 (confirmed): the integration-limit normalization `d` equals
`sin(ωs) - (ωs in radians) * cos(ωs)`: the `deg2rad` that the source applies
to the whole product `ωs * cos(ωs in radians)` is linear, so the column
equals the spec's formula. -/
theorem claim_C8 (ws : ℝ) :
    d ws = sin (deg2rad ws) - deg2rad ws * cos (deg2rad ws) := by
  unfold d deg2rad
  ring

/-- C9 (confirmed): for every latitude with the arccos argument inside
`[-1, 1]`, a month whose declination is exactly 0 degrees has a computed
sunset hour angle of exactly 90 degrees. -/
theorem claim_C9 (latitude : ℝ)
    (h1 : -1 ≤ (-tan (deg2rad latitude)) * tan (deg2rad 0))
    (h2 : (-tan (deg2rad latitude)) * tan (deg2rad 0) ≤ 1) :
    sunset_hour_angle latitude 0 = 90 := by
  unfold sunset_hour_angle
  rw [deg2rad_zero, Real.tan_zero, mul_zero, Real.arccos_zero, rad2deg_pi_div_two]

/-- Witness for C9 at latitude 40. -/
theorem claim_C9_witness : sunset_hour_angle 40 0 = 90 :=
  claim_C9 40 (by norm_num [deg2rad, Real.tan_zero])
    (by norm_num [deg2rad, Real.tan_zero])

/-- C3 (confirmed): the diffuse fraction is the literal quotient
`h * (1.39 - 4.027 k + 5.531 k² - 3.108 k³) / h`; for `h ≠ 0` it equals the
cubic polynomial in the clearness index, and at `h = 0` the NaN-faithful
evaluation is the `0/0` failure (`none`), not the polynomial value. -/
theorem claim_C3 (h k : ℝ) :
    (h ≠ 0 →
      diffuse_fraction h k = 1.39 - 4.027 * k + 5.531 * k ^ 2 - 3.108 * k ^ 3 ∧
      diffuse_fractionN h (some k) =
        some (1.39 - 4.027 * k + 5.531 * k ^ 2 - 3.108 * k ^ 3)) ∧
    (h = 0 → diffuse_fractionN h (some k) = none) := by
  constructor
  · intro hh
    constructor
    · unfold diffuse_fraction
      exact mul_div_cancel_left₀ _ hh
    · unfold diffuse_fractionN omap2 odiv
      simp only [hh, if_false, if_neg hh]
      rw [mul_div_cancel_left₀ _ hh]
  · intro hh
    subst hh
    simp [diffuse_fractionN, omap2, odiv]

/-- Witness for C3 at `h = 2`, `k = 1`. -/
theorem claim_C3_witness :
    diffuse_fraction 2 1 = 1.39 - 4.027 * 1 + 5.531 * 1 ^ 2 - 3.108 * 1 ^ 3 ∧
    diffuse_fractionN 2 (some 1) =
      some (1.39 - 4.027 * 1 + 5.531 * 1 ^ 2 - 3.108 * 1 ^ 3) :=
  (claim_C3 2 1).1 (by norm_num)

/-- C5 (confirmed): `omega_sr_abs`/`omega_ss_abs` are the absolute clipped
arccos formulas (plus/minus sign on the sqrt term respectively), and the sign
selection is: if `(A > 0 and B > 0) or (A ≥ B)` then `omega_sr = -abs` and
`omega_ss = +abs`, otherwise `omega_sr = +abs` and `omega_ss = -abs`. -/
theorem claim_C5 (ws Av Bv Cv : ℝ) :
    omega_sr_abs ws Av Bv Cv =
      |min ws (rad2deg (arccos ((Av * Bv + Cv * Real.sqrt (Av ^ 2 - Bv ^ 2 + Cv ^ 2)) /
        (Av ^ 2 + Cv ^ 2))))| ∧
    omega_ss_abs ws Av Bv Cv =
      |min ws (rad2deg (arccos ((Av * Bv - Cv * Real.sqrt (Av ^ 2 - Bv ^ 2 + Cv ^ 2)) /
        (Av ^ 2 + Cv ^ 2))))| ∧
    ((Av > 0 ∧ Bv > 0) ∨ Av ≥ Bv →
      omega_sr ws Av Bv Cv = -omega_sr_abs ws Av Bv Cv ∧
      omega_ss ws Av Bv Cv = omega_ss_abs ws Av Bv Cv) ∧
    (¬((Av > 0 ∧ Bv > 0) ∨ Av ≥ Bv) →
      omega_sr ws Av Bv Cv = omega_sr_abs ws Av Bv Cv ∧
      omega_ss ws Av Bv Cv = -omega_ss_abs ws Av Bv Cv) := by
  refine ⟨rfl, rfl, fun hc => ?_, fun hc => ?_⟩
  · unfold omega_sr omega_ss
    rw [if_pos hc, if_pos hc]
    exact ⟨rfl, rfl⟩
  · unfold omega_sr omega_ss
    rw [if_neg hc, if_neg hc]
    exact ⟨rfl, rfl⟩

/-- Witness for C5 with the condition satisfied (`A = 1 ≥ B = 0`). -/
theorem claim_C5_witness :
    omega_sr 90 1 0 0 = -omega_sr_abs 90 1 0 0 ∧
    omega_ss 90 1 0 0 = omega_ss_abs 90 1 0 0 :=
  (claim_C5 90 1 0 0).2.2.1 (Or.inr (by norm_num))

/-- C7 (confirmed): over the same monthly dataset, `calcAWAIforOptim` at
`[slope, azimuth]` is exactly the negation of
`calcAnnualWeightedAveInsolation` at the same latitude, slope, azimuth. -/
theorem claim_C7 (data : List Row) (latitude slope azimuth : ℝ) :
    calcAWAIforOptim (slope, azimuth) latitude data =
      -calcAnnualWeightedAveInsolation data latitude slope azimuth := by
  unfold calcAWAIforOptim calcAnnualWeightedAveInsolation
  rw [div_neg]

/-- C6 (confirmed): the fixed weight vector sums to 365, the annual result is
its dot product with the monthly tilted insolation divided by 365, and the
weighted average of a constant series `c` is exactly `c`. -/
theorem claim_C6 :
    dayCountWeights.sum = 365 ∧
    (∀ c : ℝ, dotProduct dayCountWeights (List.replicate 12 c) / 365 = c) ∧
    (∀ (data : List Row) (latitude slope azimuth : ℝ),
      calcAnnualWeightedAveInsolation data latitude slope azimuth =
        dotProduct dayCountWeights
          ((calcTotalInsolation data latitude slope azimuth).map Row.insolation_tilted) /
          365) := by
  refine ⟨?_, fun c => ?_, fun data lat s az => rfl⟩
  · norm_num [dayCountWeights]
  · show dotProduct dayCountWeights [c, c, c, c, c, c, c, c, c, c, c, c] / 365 = c
    unfold dotProduct dayCountWeights
    norm_num
    ring

/-- Helper: mapping the day-of-year column out of the zipWith that
`addStandardColumns` performs returns the second list. -/
lemma map_n_zipWith (sc : ℝ) (m : List ℝ) (l : List Row) (h : l.length = m.length) :
    (List.zipWith
      (fun r nv =>
        { r with
          n := nv
          declination := declination nv
          Isc_prime := Isc_prime sc nv }) l m).map Row.n = m := by
  induction m generalizing l with
  | nil => simp
  | cons x xs ih =>
    cases l with
    | nil => simp at h
    | cons r rs =>
      simp only [List.zipWith_cons_cons, List.map_cons]
      exact congrArg (x :: ·) (ih rs (by simpa using h))

/-- C10 (confirmed): for every 12-row input, `addStandardColumns` overwrites
the day-of-year column with the hardcoded typical days, regardless of the
day-of-year values present in the input. -/
theorem claim_C10 (df : List Row) (solar_cons : ℝ) (h : df.length = 12) :
    (addStandardColumns df solar_cons).map Row.n = typicalDays := by
  unfold addStandardColumns
  exact map_n_zipWith solar_cons typicalDays df (by rw [h]; rfl)

/-- Witness for C10: a 12-row input whose day-of-year values are all 999 is
still overwritten with the typical days. -/
theorem claim_C10_witness :
    (addStandardColumns (List.replicate 12 { n := 999 }) 1367).map Row.n = typicalDays :=
  claim_C10 (List.replicate 12 { n := 999 }) 1367 (by simp)

/-- C1 (amended): in the `omega_ss ≥ omega_sr` branch, `D` is the single
definite integral over `[omega_sr, omega_ss]` divided by `2d` and floored at
0; in the wrap-around branch `omega_ss < omega_sr`, `D` is the floor at 0 of
the SUM of the two definite integrals over `[-ωs, omega_ss]` and
`[omega_sr, ωs]` — one `max(0, ·)` applied jointly to the sum, not one per
integral. -/
theorem claim_C1 (ap bv dv Av Bv Cv ws sr ss : ℝ) :
    (ss ≥ sr → D ap bv dv Av Bv Cv ws sr ss =
      max 0 ((1 / (2 * dv)) * integralPiece ap bv Av Bv Cv sr ss)) ∧
    (ss < sr → D ap bv dv Av Bv Cv ws sr ss =
      max 0 ((1 / (2 * dv)) * integralPiece ap bv Av Bv Cv (-ws) ss +
             (1 / (2 * dv)) * integralPiece ap bv Av Bv Cv sr ws)) := by
  constructor
  · intro hc
    unfold D integralPiece
    rw [if_pos hc]
  · intro hc
    unfold D integralPiece
    rw [if_neg (not_le.mpr hc)]

/-- Witness for C1's wrap-around branch at concrete column values. -/
theorem claim_C1_witness :
    D 1 0 (1 / 2) (-1) 0 2 180 90 (-90) =
      max 0 ((1 / (2 * (1 / 2))) * integralPiece 1 0 (-1) 0 2 (-180) (-90) +
             (1 / (2 * (1 / 2))) * integralPiece 1 0 (-1) 0 2 90 180) :=
  (claim_C1 1 0 (1 / 2) (-1) 0 2 180 90 (-90)).2 (by norm_num)

/-- Counterexample for C1 as stated: at concrete column values in the
wrap-around branch (first integral `-1`, second `3`), the source's
`max(0, -1 + 3) = 2` differs from the spec's independent floors
`max(0, -1) + max(0, 3) = 3`. -/
theorem claim_C1_cex :
    D 1 0 (1 / 2) (-1) 0 2 180 90 (-90) ≠
      D_specIndependentFloors 1 0 (1 / 2) (-1) 0 2 180 90 (-90) := by
  have hD : D 1 0 (1 / 2) (-1) 0 2 180 90 (-90) = 2 := by
    unfold D
    rw [if_neg (by norm_num : ¬((-90 : ℝ) ≥ 90))]
    rw [show deg2rad (-90) = -(Real.pi / 2) from by unfold deg2rad; ring,
        show deg2rad (-180) = -Real.pi from by unfold deg2rad; ring,
        show deg2rad (90 : ℝ) = Real.pi / 2 from by unfold deg2rad; ring,
        show deg2rad (180 : ℝ) = Real.pi from by unfold deg2rad; ring]
    simp only [Real.sin_neg, Real.cos_neg, Real.sin_pi, Real.cos_pi,
      Real.sin_pi_div_two, Real.cos_pi_div_two]
    unfold deg2rad
    rw [max_eq_right (by norm_num)]
    norm_num
  have hS : D_specIndependentFloors 1 0 (1 / 2) (-1) 0 2 180 90 (-90) = 3 := by
    unfold D_specIndependentFloors integralPiece
    rw [if_neg (by norm_num : ¬((-90 : ℝ) ≥ 90))]
    rw [show deg2rad (-90) = -(Real.pi / 2) from by unfold deg2rad; ring,
        show deg2rad (-180) = -Real.pi from by unfold deg2rad; ring,
        show deg2rad (90 : ℝ) = Real.pi / 2 from by unfold deg2rad; ring,
        show deg2rad (180 : ℝ) = Real.pi from by unfold deg2rad; ring]
    simp only [Real.sin_neg, Real.cos_neg, Real.sin_pi, Real.cos_pi,
      Real.sin_pi_div_two, Real.cos_pi_div_two]
    unfold deg2rad
    rw [max_eq_left (by norm_num), max_eq_right (by norm_num)]
    norm_num
  rw [hD, hS]
  norm_num

/-- C4 (amended): at slope 0 the tilted-to-horizontal ratio `r_bar` equals
`max(0, (1/(2d)) * (2 a' d + b (ωs_rad - sin ωs cos ωs))) + diffuseFraction`
for every month, latitude and azimuth — a value close to, but not
identically, 1. -/
theorem claim_C4 (data : List Row) (latitude azimuth : ℝ) :
    (calcTotalInsolation data latitude 0 azimuth).map Row.r_bar =
      (addCalcSolarVars (addStandardColumns data 1367) latitude).map
        (fun r =>
          max 0 ((1 / (2 * d r.sunset_hour_angle)) *
            (2 * (a r.sunset_hour_angle - r.diffuse_fraction) * d r.sunset_hour_angle +
             b r.sunset_hour_angle *
               (deg2rad r.sunset_hour_angle -
                sin (deg2rad r.sunset_hour_angle) * cos (deg2rad r.sunset_hour_angle)))) +
          r.diffuse_fraction) := by
  unfold calcTotalInsolation addCalcMethodVars addCalcSolarVars
  rw [List.map_map, List.map_map, List.map_map, List.map_map]
  refine List.map_congr_left fun r0 _ => ?_
  exact rbar_slope_zero latitude azimuth r0.declination
    (diffuse_fraction r0.insolation_horizontal
      (clearness r0.insolation_horizontal
        (ET_insol r0.Isc_prime latitude r0.declination
          (sunset_hour_angle latitude r0.declination))))
    r0.albedo
    ((-tan (deg2rad latitude)) * tan (deg2rad r0.declination))

/-- C2 (amended): when the objective evaluation at a candidate point hits a
domain error in a month, the non-finite value propagates unchanged into the
optimizer objective: `calcAWAIforOptim` contains no penalty mapping, so a
NaN month makes the whole evaluation NaN. -/
theorem claim_C2 (h alb latitude slope azimuth : ℝ) (rest : List (ℝ × ℝ))
    (hm : monthTiltedN 17 h alb latitude slope azimuth = none) :
    calcAWAIforOptimN (slope, azimuth) latitude ((h, alb) :: rest) = none := by
  unfold calcAWAIforOptimN typicalDays dayCountWeights osum
  simp only [List.zipWith_cons_cons, List.foldr_cons]
  rw [hm]
  simp [omap2]

/-- Witness for C2's amended theorem at the concrete failing candidate
(latitude 0, slope 90, azimuth 0, January domain error). -/
theorem claim_C2_witness :
    calcAWAIforOptimN (90, 0) 0 ((1, 0.2) :: List.replicate 11 (1, 0.2)) = none :=
  claim_C2 1 0.2 0 90 0 (List.replicate 11 (1, 0.2)) monthTiltedN_17_none

/-- Counterexample for C2 as stated: at latitude 0 and candidate point
slope 90, azimuth 0, the January record's `sqrt(A² - B² + C²)` is a domain
error, and the objective evaluation yields no finite value at all — it is
not mapped to a large finite penalty. -/
theorem claim_C2_cex :
    (calcAWAIforOptimN (90, 0) 0 (List.replicate 12 (1, 0.2))).isSome = false := by
  rw [show List.replicate 12 ((1 : ℝ), (0.2 : ℝ)) =
      ((1 : ℝ), (0.2 : ℝ)) :: List.replicate 11 ((1 : ℝ), (0.2 : ℝ)) from rfl]
  unfold calcAWAIforOptimN typicalDays dayCountWeights osum
  simp only [List.zipWith_cons_cons, List.foldr_cons]
  rw [monthTiltedN_17_none]
  simp [omap2]

/-- Counterexample for C4 as stated: at latitude 0, azimuth 0, slope 0, with
a valid 12-row dataset whose January insolation gives clearness index 1/2,
the January `r_bar` is `0.6598 + 0.1056375 π ≈ 0.9917`, not `1.0`. -/
theorem claim_C4_cex :
    ((calcTotalInsolation
        (List.replicate 12
          ({ insolation_horizontal := ET_insol (Isc_prime 1367 17) 0 (declination 17) 90 / 2,
             albedo := 0.2 } : Row))
        0 0 0).map Row.r_bar).head? = some (0.6598 + 0.1056375 * Real.pi) ∧
    (0.6598 + 0.1056375 * Real.pi : ℝ) ≠ 1 := by
  have hE := ET90_lat0_pos 17
  have hEne : ET_insol (Isc_prime 1367 17) 0 (declination 17) 90 ≠ 0 := ne_of_gt hE
  refine ⟨?_, ?_⟩
  · unfold calcTotalInsolation addCalcMethodVars addCalcSolarVars addStandardColumns typicalDays
    rw [show List.replicate 12
          ({ insolation_horizontal := ET_insol (Isc_prime 1367 17) 0 (declination 17) 90 / 2,
             albedo := 0.2 } : Row) =
        ({ insolation_horizontal := ET_insol (Isc_prime 1367 17) 0 (declination 17) 90 / 2,
           albedo := 0.2 } : Row) ::
          List.replicate 11
            ({ insolation_horizontal := ET_insol (Isc_prime 1367 17) 0 (declination 17) 90 / 2,
               albedo := 0.2 } : Row) from rfl]
    simp only [List.zipWith_cons_cons, List.map_cons, List.head?_cons, Option.some.injEq]
    rw [sha_lat0]
    rw [show clearness (ET_insol (Isc_prime 1367 17) 0 (declination 17) 90 / 2)
          (ET_insol (Isc_prime 1367 17) 0 (declination 17) 90) = 1 / 2 from by
      unfold clearness
      field_simp
      ring]
    rw [show diffuse_fraction (ET_insol (Isc_prime 1367 17) 0 (declination 17) 90 / 2)
          (1 / 2) = 0.37075 from by
      unfold diffuse_fraction
      rw [mul_div_cancel_left₀ _ (div_ne_zero hEne (by norm_num : (2 : ℝ) ≠ 0))]
      norm_num]
    rw [a_ninety, b_ninety, d_ninety, A_zero_lat0, B_90_slope0, C_zero, omega_sr_90,
      omega_ss_90, D_eval_slope0_90 (0.6598 - 0.37075) (by norm_num), deg2rad_zero,
      Real.cos_zero]
    norm_num
    linarith
  · have hlt : 0.6598 + 0.1056375 * Real.pi < 1 := by nlinarith [Real.pi_lt_d2]
    exact ne_of_lt hlt

end fChart
